import Mathlib

/-!
# The `/consulta-link` webhook handler of `server.js`

A shallow embedding of the `app.post('/consulta-link', ...)` handler (lines 216-272 of
`src/server.js`) and of the JavaScript operations it relies on: truthiness (`!x`, `a || b`),
property reads, optional chaining (`a?.b`), template-literal conversion, `try`/`catch` and `await`
on the promises returned by `axios.get` / `axios.post`.

The collaborators (the payment processor and the downstream orchestrator) are an explicit
environment `World`; one run of the handler yields a `Run`: the outbound calls in the order they
were issued, the console lines written, and how the run ended.
-/

namespace ConsultaLink

/-! ## JavaScript values -/

/-- A JavaScript value as it reaches the handler: what `JSON.parse` builds (the request body parsed
by `express.json()`, the `data` of an axios response) plus `undefined`, the result of reading a
property that is not there. A number is kept as the text `Number::toString` gives for it (`0` and
`-0` both print as "0"), which is all the handler ever observes of a number. An object is the list
of its own properties; a property read finds the first entry with the key. -/
inductive JsValue where
  | undefined
  | null
  | bool (b : Bool)
  | number (text : String)
  | string (s : String)
  | array (items : List JsValue)
  | object (fields : List (String × JsValue))

/-- The response object of axios: the HTTP status and the decoded body `data`. -/
structure AxiosResponse where
  status : Nat
  data : JsValue

/-- A thrown JavaScript error as the handler reads it: `error.message`, and `error.response`, which
axios sets when the server answered (with a status outside 2xx) and leaves undefined on a transport
failure; a `TypeError` raised by the engine has no `response` either. -/
structure JsError where
  message : String
  response : Option AxiosResponse

namespace JsValue

/-- The values `undefined` and `null`: a property read on them throws, `?.` short-circuits. -/
def isNullish : JsValue → Bool
  | undefined => true
  | null => true
  | _ => false

/-- ECMAScript `ToBoolean`, the test behind `!x` and `a || b`: `undefined`, `null`, `false`, `0`,
`NaN` and the empty string are falsy, everything else (every array and object included) is
truthy. -/
def toBoolean : JsValue → Bool
  | undefined => false
  | null => false
  | bool b => b
  | number text => !(text == "0" || text == "NaN")
  | string s => !(s == "")
  | array _ => true
  | object _ => true

/-- The own property `key` of an object, `undefined` when it has none. -/
def lookup (key : String) : List (String × JsValue) → JsValue
  | [] => undefined
  | (k, v) :: rest => if k == key then v else lookup key rest

/-- The read `v.key` for one of the four keys the handler reads (`data`, `id`, `order`,
`order_id`), on a value that is not nullish: an object gives its own property, and since no
prototype, string or array defines any of these keys, everything else gives `undefined`. -/
def field (v : JsValue) (key : String) : JsValue :=
  match v with
  | object fields => lookup key fields
  | _ => undefined

/-- The read `v.key` as a statement: a `TypeError` when `v` is `undefined` or `null`. -/
def getField (v : JsValue) (key : String) : Except JsError JsValue :=
  match v with
  | undefined =>
      .error ⟨"Cannot read properties of undefined (reading \x27" ++ key ++ "\x27)", none⟩
  | null => .error ⟨"Cannot read properties of null (reading \x27" ++ key ++ "\x27)", none⟩
  | _ => .ok (field v key)

/-- Optional chaining `v?.key`: `undefined` when `v` is nullish, the property read otherwise. -/
def optField (v : JsValue) (key : String) : JsValue :=
  if v.isNullish then undefined else field v key

mutual
/-- ECMAScript `ToString` as a template literal applies it to a value: primitives print as text;
an array prints as `join(",")` of its elements; an object built by `JSON.parse` prints as
"[object Object]" through `Object.prototype.toString`, unless it has an own property `toString`,
which is then not callable and makes the conversion throw a `TypeError`. -/
def toStr : JsValue → Except JsError String
  | undefined => .ok "undefined"
  | null => .ok "null"
  | bool true => .ok "true"
  | bool false => .ok "false"
  | number text => .ok text
  | string s => .ok s
  | array items => joinItems items
  | object fields =>
      if fields.any (fun kv => kv.1 == "toString") then
        .error ⟨"Cannot convert object to primitive value", none⟩
      else .ok "[object Object]"
/-- The method `Array.prototype.join` with the separator ",": `undefined` and `null` elements
give the empty text, the others are converted in order, the first failure is thrown. -/
def joinItems : List JsValue → Except JsError String
  | [] => .ok ""
  | x :: xs =>
      match (if x.isNullish then .ok "" else toStr x), xs, joinItems xs with
      | .error e, _, _ => .error e
      | .ok s, [], _ => .ok s
      | .ok _, _ :: _, .error e => .error e
      | .ok s, _ :: _, .ok r => .ok (s ++ "," ++ r)
end

end JsValue

open JsValue

/-! ## Outbound calls and the environment -/

/-- The request options object handed to `axios.get`: its headers, and its `timeout` key (`none`
when the object has no such key, in which case axios applies no time limit). -/
structure RequestConfig where
  headers : List (String × String)
  timeout : Option Nat

/-- One outbound HTTP call: `axios.get(url, config)` or `axios.post(url, data)`. -/
inductive Call where
  | get (url : String) (config : RequestConfig)
  | post (url : String) (data : JsValue)

/-- The time limit an outbound call carries: that of its options object; the `post` of the handler
is issued without an options object and so carries none. -/
def Call.timeout : Call → Option Nat
  | .get _ config => config.timeout
  | .post _ _ => none

/-- Whether the call is a `post`, the relay. -/
def Call.isPost : Call → Bool
  | .get _ _ => false
  | .post _ _ => true

/-- What becomes of the promise an axios call returns: fulfilled with a response (status 2xx),
rejected with an error (any other status, or a transport failure), or never settled. -/
inductive Settlement where
  | fulfilled (response : AxiosResponse)
  | rejected (error : JsError)
  | pending

/-- Whether the promise settles at all. -/
def Settlement.settles : Settlement → Bool
  | .pending => false
  | _ => true

/-- The surroundings of one delivery: the environment variable `MERCADOPAGO_ACCESS_TOKEN`
(`none` when unset) and the behaviour of the two HTTP operations. -/
structure World where
  accessToken : Option String
  axiosGet : String → RequestConfig → Settlement
  axiosPost : String → JsValue → Settlement

/-- Every promise of the environment settles: each collaborator answers, successfully or not. -/
def World.Settles (w : World) : Prop :=
  (∀ url config, (w.axiosGet url config).settles = true) ∧
    ∀ url data, (w.axiosPost url data).settles = true

/-! ## Responses and runs -/

/-- The body of the HTTP response: `res.json(value)` or the text of `res.sendStatus`. -/
inductive ResponseBody where
  | json (value : JsValue)
  | text (s : String)

/-- The HTTP response sent to the webhook sender. -/
structure Response where
  status : Nat
  body : ResponseBody

/-- A line written to the console: `console.warn(msg)` or `console.error(label, detail)`. -/
inductive LogLine where
  | warn (msg : String)
  | error (label : String) (detail : JsValue)

/-- How a run of the handler ends: a response was sent, an error escaped the handler without a
response being sent, or the handler is suspended for ever on a promise that never settles. -/
inductive Completion where
  | responded (res : Response)
  | threw (e : JsError)
  | pending

/-- One run of the handler: outbound calls in the order issued, console lines, completion. -/
structure Run where
  calls : List Call
  logs : List LogLine
  completion : Completion

/-- The response of `res.status(400).json(...)` at line 222. -/
def badRequest : Response :=
  ⟨400, .json (.object
    [("error", .string "No se encontró el ID de pago en la estructura recibida.")])⟩

/-- The response of `res.sendStatus(200)`: status 200 with the status text as body. -/
def ok200 : Response := ⟨200, .text "OK"⟩

/-- The payment resource of the processor, the literal part of the template at line 228. -/
def paymentsUrl : String := "https://api.mercadopago.com/v1/payments/"

/-- The merchant-order resource of the processor, the literal part of the template at
line 246. -/
def merchantOrdersUrl : String := "https://api.mercadopago.com/merchant_orders/"

/-- The fixed downstream endpoint of line 259. -/
def relayUrl : String :=
  "https://orquestador-577166035685.us-central1.run.app/app/webhook/orquestador"

/-- The options object of both `axios.get` calls: one `Authorization` header built by a template
from the access token (an unset variable prints as "undefined") and nothing else. -/
def authConfig (accessToken : Option String) : RequestConfig :=
  { headers := [("Authorization", "Bearer " ++ accessToken.getD "undefined")]
    timeout := none }

/-- The value logged by both `catch` blocks: `error.response?.data || error.message`. -/
def errorDetail (e : JsError) : JsValue :=
  match e.response with
  | none => .string e.message
  | some r => if r.data.toBoolean then r.data else .string e.message

/-! ## The handler -/

/-- The value at `data.id` of a request body, read as line 218 reads it (`data?.id`): `undefined`
when the body has no `data`, or a `data` without `id`. -/
def dataId (body : JsValue) : JsValue :=
  (field body "data").optField "id"

/-- Lines 217-218: `const { data } = req.body; const payment_id = data?.id;`. Destructuring a
nullish `req.body` throws; otherwise `data` is the property read and `?.` guards the second
read. -/
def payment_id (body : JsValue) : Except JsError JsValue :=
  match body with
  | .undefined =>
      .error ⟨"Cannot destructure property \x27data\x27 of \x27req.body\x27 as it is undefined.",
        none⟩
  | .null =>
      .error ⟨"Cannot destructure property \x27data\x27 of \x27req.body\x27 as it is null.", none⟩
  | _ => .ok (dataId body)

/-- Line 237: `const orderId = paymentData.order?.id || paymentData.order_id;`. -/
def orderId (paymentData : JsValue) : Except JsError JsValue :=
  match paymentData.getField "order" with
  | .error e => .error e
  | .ok order =>
      if (order.optField "id").toBoolean then .ok (order.optField "id")
      else paymentData.getField "order_id"

/-- Lines 226-267, the body of the outer `try` for a truthy `payment_id`; a completion `threw`
is an error on its way to the outer `catch`. -/
def tryBlock (w : World) (pid : JsValue) : Run :=
  match pid.toStr with
  | .error e => ⟨[], [], .threw e⟩
  | .ok s =>
    let getPayment := Call.get (paymentsUrl ++ s) (authConfig w.accessToken)
    match w.axiosGet (paymentsUrl ++ s) (authConfig w.accessToken) with
    | .pending => ⟨[getPayment], [], .pending⟩
    | .rejected e => ⟨[getPayment], [], .threw e⟩
    | .fulfilled paymentResponse =>
      match orderId paymentResponse.data with
      | .error e => ⟨[getPayment], [], .threw e⟩
      | .ok oid =>
        if !oid.toBoolean then
          ⟨[getPayment], [.warn "No se encontró un order_id en el pago recibido"],
            .responded ok200⟩
        else
          match oid.toStr with
          | .error e => ⟨[getPayment], [], .threw e⟩
          | .ok t =>
            let getOrder := Call.get (merchantOrdersUrl ++ t) (authConfig w.accessToken)
            match w.axiosGet (merchantOrdersUrl ++ t) (authConfig w.accessToken) with
            | .pending => ⟨[getPayment, getOrder], [], .pending⟩
            | .rejected e => ⟨[getPayment, getOrder], [], .threw e⟩
            | .fulfilled orderResponse =>
              let relay := Call.post relayUrl orderResponse.data
              match w.axiosPost relayUrl orderResponse.data with
              | .pending => ⟨[getPayment, getOrder, relay], [], .pending⟩
              | .rejected e =>
                  ⟨[getPayment, getOrder, relay],
                    [.error "Error al enviar datos al endpoint externo:" (errorDetail e)],
                    .responded ok200⟩
              | .fulfilled _ => ⟨[getPayment, getOrder, relay], [], .responded ok200⟩

/-- Lines 268-271, the outer `catch`: the error is logged and answered with 200. -/
def catchBlock (r : Run) : Run :=
  match r.completion with
  | .threw e =>
      ⟨r.calls, r.logs ++ [.error "Error en consulta-link:" (errorDetail e)], .responded ok200⟩
  | _ => r

/-- The handler `app.post('/consulta-link', async (req, res) => ...)` on the parsed request body
`req.body`. -/
def consultaLink (w : World) (body : JsValue) : Run :=
  match payment_id body with
  | .error e => ⟨[], [], .threw e⟩
  | .ok pid =>
    if !pid.toBoolean then ⟨[], [], .responded badRequest⟩
    else catchBlock (tryBlock w pid)

/-- The status of the response a run sent, if it sent one. -/
def Run.status (r : Run) : Option Nat :=
  match r.completion with
  | .responded res => some res.status
  | _ => none

/-! ## The order-reference rule as the specification words it -/

/-- The nested candidate `order.id` of a payment record (`undefined` when absent). -/
def nestedOrderId (paymentData : JsValue) : JsValue :=
  (paymentData.field "order").optField "id"

/-- The top-level candidate `order_id` of a payment record (`undefined` when absent). -/
def topLevelOrderId (paymentData : JsValue) : JsValue :=
  paymentData.field "order_id"

/-- The specification's prioritized fallback: the first candidate of an ordered list that is
present and non-empty (truthy), `none` when there is none. -/
def firstNonEmpty (candidates : List JsValue) : Option JsValue :=
  candidates.find? toBoolean

/-! ## Concrete deliveries used as examples -/

/-- The event with the body `{ "data": { "id": "123" } }`. -/
def event123 : JsValue := .object [("data", .object [("id", .string "123")])]

/-- The order record `{ "id": "987", "status": "closed" }`. -/
def order987 : JsValue := .object [("id", .string "987"), ("status", .string "closed")]

/-- The error axios rejects with when the server answers 404. -/
def notFound : JsError :=
  ⟨"Request failed with status code 404", some ⟨404, .object [("message", .string "not found")]⟩⟩

/-- An environment where payment 123 is `{ "order_id": "987" }`, order 987 is `order987`, every
other lookup is answered 404 and the relay accepts what it is sent. -/
def scenarioWorld : World where
  accessToken := some "TEST-TOKEN"
  axiosGet := fun url _ =>
    if url = paymentsUrl ++ "123" then
      .fulfilled ⟨200, .object [("order_id", .string "987")]⟩
    else if url = merchantOrdersUrl ++ "987" then .fulfilled ⟨200, order987⟩
    else .rejected notFound
  axiosPost := fun _ _ => .fulfilled ⟨200, .string ""⟩

/-- An environment where every lookup is answered 404. -/
def failingWorld : World where
  accessToken := some "TEST-TOKEN"
  axiosGet := fun _ _ => .rejected notFound
  axiosPost := fun _ _ => .fulfilled ⟨200, .string ""⟩

/-- An environment where payment 123 exists and is tied to no order. -/
def noOrderWorld : World where
  accessToken := some "TEST-TOKEN"
  axiosGet := fun _ _ => .fulfilled ⟨200, .object [("status", .string "pending")]⟩
  axiosPost := fun _ _ => .fulfilled ⟨200, .string ""⟩

/-- An environment where the processor accepts the connection and never answers. -/
def stalledWorld : World where
  accessToken := some "TEST-TOKEN"
  axiosGet := fun _ _ => .pending
  axiosPost := fun _ _ => .pending

/-- An environment where payment 123 is tied to order 987 by the nested `order.id` (a number)
and every other lookup, the order lookup included, is answered 404. -/
def orderMissingWorld : World where
  accessToken := some "TEST-TOKEN"
  axiosGet := fun url _ =>
    if url = paymentsUrl ++ "123" then
      .fulfilled ⟨200, .object [("order", .object [("id", .number "987")])]⟩
    else .rejected notFound
  axiosPost := fun _ _ => .fulfilled ⟨200, .string ""⟩

/-- The payment record `{ "order": { "id": 55 }, "order_id": "987" }`, with both references. -/
def paymentBothRefs : JsValue :=
  .object [("order", .object [("id", .number "55")]), ("order_id", .string "987")]

/-- The event with the body `{ "data": { "id": [] } }`: the id is an empty array. -/
def emptyArrayEvent : JsValue := .object [("data", .object [("id", .array [])])]

/-! ## Basic facts -/

theorem dataId_of_nullish {body : JsValue} (h : body.isNullish = true) :
    dataId body = .undefined := by
  cases body <;> simp_all [JsValue.isNullish, dataId, JsValue.field, JsValue.optField]

theorem payment_id_of_not_nullish {body : JsValue} (h : body.isNullish = false) :
    payment_id body = .ok (dataId body) := by
  cases body <;> simp_all [JsValue.isNullish, payment_id]

theorem not_nullish_of_truthy {body : JsValue} (h : (dataId body).toBoolean = true) :
    body.isNullish = false := by
  cases hb : body.isNullish
  · rfl
  · rw [dataId_of_nullish hb] at h
    simp [JsValue.toBoolean] at h

theorem payment_id_of_truthy {body : JsValue} (h : (dataId body).toBoolean = true) :
    payment_id body = .ok (dataId body) :=
  payment_id_of_not_nullish (not_nullish_of_truthy h)

theorem consultaLink_of_truthy (w : World) {body : JsValue}
    (h : (dataId body).toBoolean = true) :
    consultaLink w body = catchBlock (tryBlock w (dataId body)) := by
  simp [consultaLink, payment_id_of_truthy h, h]

theorem catchBlock_calls (r : Run) : (catchBlock r).calls = r.calls := by
  unfold catchBlock
  split <;> rfl

theorem catchBlock_tryBlock_of_settles (w : World) (pid : JsValue) (hw : w.Settles) :
    (catchBlock (tryBlock w pid)).completion = .responded ok200 := by
  obtain ⟨hget, hpost⟩ := hw
  cases hs : pid.toStr with
  | error e => simp [tryBlock, catchBlock, hs]
  | ok s =>
    have h1 := hget (paymentsUrl ++ s) (authConfig w.accessToken)
    cases hp : w.axiosGet (paymentsUrl ++ s) (authConfig w.accessToken) with
    | pending => simp [hp, Settlement.settles] at h1
    | rejected e => simp [tryBlock, catchBlock, hs, hp]
    | fulfilled paymentResponse =>
      cases href : orderId paymentResponse.data with
      | error e => simp [tryBlock, catchBlock, hs, hp, href]
      | ok oid =>
        cases hoid : oid.toBoolean with
        | false => simp [tryBlock, catchBlock, hs, hp, href, hoid]
        | true =>
          cases ht : oid.toStr with
          | error e => simp [tryBlock, catchBlock, hs, hp, href, hoid, ht]
          | ok t =>
            have h2 := hget (merchantOrdersUrl ++ t) (authConfig w.accessToken)
            cases ho : w.axiosGet (merchantOrdersUrl ++ t) (authConfig w.accessToken) with
            | pending => simp [ho, Settlement.settles] at h2
            | rejected e => simp [tryBlock, catchBlock, hs, hp, href, hoid, ht, ho]
            | fulfilled orderResponse =>
              have h3 := hpost relayUrl orderResponse.data
              cases hr : w.axiosPost relayUrl orderResponse.data with
              | pending => simp [hr, Settlement.settles] at h3
              | rejected e => simp [tryBlock, catchBlock, hs, hp, href, hoid, ht, ho, hr]
              | fulfilled r => simp [tryBlock, catchBlock, hs, hp, href, hoid, ht, ho, hr]

theorem status_of_settles (w : World) (body : JsValue) (hbody : body.isNullish = false)
    (hw : w.Settles) :
    (consultaLink w body).completion =
      .responded (if (dataId body).toBoolean then ok200 else badRequest) := by
  cases hid : (dataId body).toBoolean with
  | false => simp [consultaLink, payment_id_of_not_nullish hbody, hid]
  | true =>
    rw [consultaLink_of_truthy w hid]
    simpa using catchBlock_tryBlock_of_settles w (dataId body) hw

/-- The calls of the `try` block form a prefix of payment lookup, order lookup, relay, each step
taken only after the one before it was fulfilled. -/
theorem tryBlock_calls (w : World) (pid : JsValue) :
    (tryBlock w pid).calls = [] ∨
      ∃ s, pid.toStr = .ok s ∧
        ((tryBlock w pid).calls = [.get (paymentsUrl ++ s) (authConfig w.accessToken)] ∨
          ∃ paymentResponse oid t,
            w.axiosGet (paymentsUrl ++ s) (authConfig w.accessToken)
                = .fulfilled paymentResponse ∧
              orderId paymentResponse.data = .ok oid ∧ oid.toBoolean = true ∧
              oid.toStr = .ok t ∧
              ((tryBlock w pid).calls =
                  [.get (paymentsUrl ++ s) (authConfig w.accessToken),
                   .get (merchantOrdersUrl ++ t) (authConfig w.accessToken)] ∨
                ∃ orderResponse,
                  w.axiosGet (merchantOrdersUrl ++ t) (authConfig w.accessToken)
                      = .fulfilled orderResponse ∧
                    (tryBlock w pid).calls =
                      [.get (paymentsUrl ++ s) (authConfig w.accessToken),
                       .get (merchantOrdersUrl ++ t) (authConfig w.accessToken),
                       .post relayUrl orderResponse.data])) := by
  cases hs : pid.toStr with
  | error e => left; simp [tryBlock, hs]
  | ok s =>
    refine Or.inr ⟨s, rfl, ?_⟩
    cases hp : w.axiosGet (paymentsUrl ++ s) (authConfig w.accessToken) with
    | pending => left; simp [tryBlock, hs, hp]
    | rejected e => left; simp [tryBlock, hs, hp]
    | fulfilled paymentResponse =>
      cases href : orderId paymentResponse.data with
      | error e => left; simp [tryBlock, hs, hp, href]
      | ok oid =>
        cases hoid : oid.toBoolean with
        | false => left; simp [tryBlock, hs, hp, href, hoid]
        | true =>
          cases ht : oid.toStr with
          | error e => left; simp [tryBlock, hs, hp, href, hoid, ht]
          | ok t =>
            refine Or.inr ⟨paymentResponse, oid, t, rfl, href, hoid, ht, ?_⟩
            cases ho : w.axiosGet (merchantOrdersUrl ++ t) (authConfig w.accessToken) with
            | pending => left; simp [tryBlock, hs, hp, href, hoid, ht, ho]
            | rejected e => left; simp [tryBlock, hs, hp, href, hoid, ht, ho]
            | fulfilled orderResponse =>
              refine Or.inr ⟨orderResponse, rfl, ?_⟩
              cases hr : w.axiosPost relayUrl orderResponse.data <;>
                simp [tryBlock, hs, hp, href, hoid, ht, ho, hr]

/-- A rejected event and a body that cannot be destructured lead to no outbound call. -/
theorem consultaLink_calls_of_falsy (w : World) {body : JsValue}
    (h : (dataId body).toBoolean = false) : (consultaLink w body).calls = [] := by
  cases hb : body.isNullish with
  | false => simp [consultaLink, payment_id_of_not_nullish hb, h]
  | true => cases body <;> simp_all [JsValue.isNullish, consultaLink, payment_id]

theorem consultaLink_calls_of_truthy (w : World) {body : JsValue}
    (h : (dataId body).toBoolean = true) :
    (consultaLink w body).calls = (tryBlock w (dataId body)).calls := by
  rw [consultaLink_of_truthy w h, catchBlock_calls]

theorem one_le_length_of_truthy {s : String} (h : (JsValue.string s).toBoolean = true) :
    1 ≤ s.length := by
  rcases s with ⟨l⟩
  cases l with
  | nil => simp [JsValue.toBoolean] at h
  | cons c cs => simp [String.length]

/-! ## The claims -/

/-- The guard of line 221 on a request body that is there (`req.body` neither `undefined` nor
`null`): when the body carries no payment identifier at `data.id` (absent, or empty: any falsy
value), the body `{}` included, the delivery is answered with status 400 and a body holding an
error message, and the run makes no outbound call at all. -/
theorem consultaLink_missing_id (w : World) (body : JsValue)
    (hbody : body.isNullish = false) (hmissing : (dataId body).toBoolean = false) :
    (consultaLink w body).calls = [] ∧
      (consultaLink w body).completion = .responded badRequest ∧
      badRequest.status = 400 ∧
      ∃ msg, msg ≠ "" ∧ badRequest.body = .json (.object [("error", .string msg)]) := by
  refine ⟨?_, ?_, rfl, _, ?_, rfl⟩
  · simp [consultaLink, payment_id_of_not_nullish hbody, hmissing]
  · simp [consultaLink, payment_id_of_not_nullish hbody, hmissing]
  · decide

/-- The guard of line 221 on the body `{}`, in an environment that would answer every lookup. -/
theorem consultaLink_missing_id_witness :
    (consultaLink scenarioWorld (.object [])).calls = [] ∧
      (consultaLink scenarioWorld (.object [])).completion = .responded badRequest ∧
      badRequest.status = 400 ∧
      ∃ msg, msg ≠ "" ∧ badRequest.body = .json (.object [("error", .string msg)]) :=
  consultaLink_missing_id scenarioWorld (.object []) rfl rfl

/-- C1, which the code breaks on a delivery without a request body (`req.body` is `undefined`, as
`express.json()` leaves it when there is nothing to parse): such a delivery has no payment
identifier at `data.id`, yet the destructuring of line 217, placed before the guard and outside
the `try`, throws a `TypeError`; no outbound call is made, but the handler sends no response at
all, so not the 400 with an error message, and the error escapes it. -/
theorem consultaLink_missing_body_throws (w : World) :
    (dataId .undefined).toBoolean = false ∧
      (consultaLink w .undefined).calls = [] ∧
      (consultaLink w .undefined).completion
        = .threw ⟨"Cannot destructure property \x27data\x27 of \x27req.body\x27 as it is undefined.",
            none⟩ ∧
      (consultaLink w .undefined).completion ≠ .responded badRequest ∧
      (consultaLink w .undefined).status = none := by
  refine ⟨rfl, rfl, rfl, ?_, rfl⟩
  intro h
  have hthrew : (consultaLink w .undefined).completion
      = .threw ⟨"Cannot destructure property \x27data\x27 of \x27req.body\x27 as it is undefined.",
          none⟩ := rfl
  rw [hthrew] at h
  cases h

/-- C2: when the event carries a payment id, the payment lookup succeeds, an order reference is
resolved and the order lookup succeeds, the run issues exactly the three calls payment lookup,
order lookup, relay, the relay once and with the `data` of the order response unchanged as its
payload, and answers 200 whether the relay promise is fulfilled or rejected. -/
theorem consultaLink_relays_order (w : World) (body : JsValue) (s t : String)
    (paymentResponse orderResponse : AxiosResponse) (oid : JsValue)
    (hid : (dataId body).toBoolean = true) (hs : (dataId body).toStr = .ok s)
    (hpayment : w.axiosGet (paymentsUrl ++ s) (authConfig w.accessToken)
      = .fulfilled paymentResponse)
    (href : orderId paymentResponse.data = .ok oid) (hoid : oid.toBoolean = true)
    (ht : oid.toStr = .ok t)
    (horder : w.axiosGet (merchantOrdersUrl ++ t) (authConfig w.accessToken)
      = .fulfilled orderResponse)
    (hrelay : (w.axiosPost relayUrl orderResponse.data).settles = true) :
    (consultaLink w body).calls =
        [.get (paymentsUrl ++ s) (authConfig w.accessToken),
         .get (merchantOrdersUrl ++ t) (authConfig w.accessToken),
         .post relayUrl orderResponse.data] ∧
      ((consultaLink w body).calls.filter Call.isPost) = [.post relayUrl orderResponse.data] ∧
      (consultaLink w body).completion = .responded ok200 ∧
      (consultaLink w body).status = some 200 := by
  rw [consultaLink_of_truthy w hid]
  cases hpost : w.axiosPost relayUrl orderResponse.data with
  | pending => simp [hpost, Settlement.settles] at hrelay
  | fulfilled r =>
    simp [tryBlock, catchBlock, Run.status, hs, hpayment, href, hoid, ht, horder, hpost,
      Call.isPost, ok200]
  | rejected e =>
    simp [tryBlock, catchBlock, Run.status, hs, hpayment, href, hoid, ht, horder, hpost,
      Call.isPost, ok200]

/-- Witness of C2: the event `{ data: { id: "123" } }` with payment `{ order_id: "987" }` and order
`{ id: "987", status: "closed" }` gives one relay call carrying that order and the answer 200. -/
theorem consultaLink_relays_order_witness :
    (consultaLink scenarioWorld event123).calls =
        [.get (paymentsUrl ++ "123") (authConfig scenarioWorld.accessToken),
         .get (merchantOrdersUrl ++ "987") (authConfig scenarioWorld.accessToken),
         .post relayUrl order987] ∧
      ((consultaLink scenarioWorld event123).calls.filter Call.isPost)
        = [.post relayUrl order987] ∧
      (consultaLink scenarioWorld event123).completion = .responded ok200 ∧
      (consultaLink scenarioWorld event123).status = some 200 :=
  consultaLink_relays_order scenarioWorld event123 "123" "987"
    ⟨200, .object [("order_id", .string "987")]⟩ ⟨200, order987⟩ (.string "987")
    rfl rfl rfl rfl rfl rfl rfl rfl

/-- The acknowledgement policy on a request body that is there (`req.body` neither `undefined`
nor `null`), with collaborators that each answer in some way (success, error response, transport
failure): the handler answers 200 whenever the event carries a payment id, whatever the
collaborators did and whatever was thrown inside the pipeline, and never 5xx; it answers 400
exactly when the payment id is missing; so the status depends on the event alone and two
deliveries of one event, in any two such environments, get the same status. -/
theorem consultaLink_status_of_event (w w2 : World) (body : JsValue)
    (hbody : body.isNullish = false) (hw : w.Settles) (hw2 : w2.Settles) :
    (consultaLink w body).completion
        = .responded (if (dataId body).toBoolean then ok200 else badRequest) ∧
      (consultaLink w body).status = some (if (dataId body).toBoolean then 200 else 400) ∧
      ((consultaLink w body).status = some 400 ↔ (dataId body).toBoolean = false) ∧
      (∀ n, (consultaLink w body).status = some n → n < 500) ∧
      (consultaLink w body).status = (consultaLink w2 body).status := by
  have h1 := status_of_settles w body hbody hw
  have h2 := status_of_settles w2 body hbody hw2
  cases hid : (dataId body).toBoolean <;>
    simp [Run.status, h1, h2, hid, ok200, badRequest]

/-- The acknowledgement policy on the event with payment id 123, delivered once where every
lookup fails and once where the whole chain succeeds: it is answered 200 both times. -/
theorem consultaLink_status_of_event_witness :
    event123.isNullish = false ∧ failingWorld.Settles ∧ scenarioWorld.Settles ∧
      (consultaLink failingWorld event123).completion = .responded ok200 ∧
      (consultaLink failingWorld event123).status = some 200 ∧
      (consultaLink failingWorld event123).status
        = (consultaLink scenarioWorld event123).status :=
  have hfail : failingWorld.Settles := ⟨fun _ _ => rfl, fun _ _ => rfl⟩
  have hscen : scenarioWorld.Settles :=
    ⟨fun url _ => by
      show (if url = paymentsUrl ++ "123" then _ else _ : Settlement).settles = true
      split
      · rfl
      · split <;> rfl,
     fun _ _ => rfl⟩
  have h := consultaLink_status_of_event failingWorld scenarioWorld event123 rfl hfail hscen
  ⟨rfl, hfail, hscen, h.1, h.2.1, h.2.2.2.2⟩

/-- C3, which the code breaks on a delivery without a request body (`req.body` is `undefined`):
the payment id is missing, yet the status is not 400, since the destructuring of line 217 throws
before the guard; and the error is raised outside the `try`, so the outer `catch` that turns every
failure into a 200 is never reached and the handler answers with no status of its own, neither
400 nor 200, in every environment. -/
theorem consultaLink_status_missing_body (w : World) :
    (dataId .undefined).toBoolean = false ∧
      (consultaLink w .undefined).status ≠ some 400 ∧
      (consultaLink w .undefined).status ≠ some 200 ∧
      ¬ ((consultaLink w .undefined).status = some 400 ↔
          (dataId .undefined).toBoolean = false) := by
  have hstatus : (consultaLink w .undefined).status = none := rfl
  have hid : (dataId .undefined).toBoolean = false := rfl
  refine ⟨hid, ?_, ?_, ?_⟩
  · rw [hstatus]
    exact Option.noConfusion
  · rw [hstatus]
    exact Option.noConfusion
  · rw [hstatus]
    intro h
    exact Option.noConfusion (h.mpr hid)

/-- C4: when the event carries a payment id and the payment lookup fails (its promise is
rejected: a status outside 2xx or a transport failure), the payment lookup is the only outbound
call, so neither the order lookup nor the relay is invoked, and the answer is 200. -/
theorem consultaLink_payment_lookup_fails (w : World) (body : JsValue) (s : String)
    (e : JsError)
    (hid : (dataId body).toBoolean = true) (hs : (dataId body).toStr = .ok s)
    (hpayment : w.axiosGet (paymentsUrl ++ s) (authConfig w.accessToken) = .rejected e) :
    (consultaLink w body).calls = [.get (paymentsUrl ++ s) (authConfig w.accessToken)] ∧
      (consultaLink w body).completion = .responded ok200 ∧
      (consultaLink w body).status = some 200 := by
  rw [consultaLink_of_truthy w hid]
  simp [tryBlock, catchBlock, Run.status, hs, hpayment, ok200]

/-- Witness of C4: payment 123 looked up at a processor that answers 404. -/
theorem consultaLink_payment_lookup_fails_witness :
    (consultaLink failingWorld event123).calls =
        [.get (paymentsUrl ++ "123") (authConfig failingWorld.accessToken)] ∧
      (consultaLink failingWorld event123).completion = .responded ok200 ∧
      (consultaLink failingWorld event123).status = some 200 :=
  consultaLink_payment_lookup_fails failingWorld event123 "123" notFound rfl rfl rfl

/-- C5: when the payment lookup returns a payment record whose nested `order.id` and top-level
`order_id` are both absent (or empty), the payment lookup stays the only outbound call, so
neither the order lookup nor the relay is invoked, and the answer is 200; this is a normal end,
not an error: the only console line is the warning, nothing is logged as an error. -/
theorem consultaLink_no_order_reference (w : World) (body : JsValue) (s : String)
    (paymentResponse : AxiosResponse)
    (hid : (dataId body).toBoolean = true) (hs : (dataId body).toStr = .ok s)
    (hpayment : w.axiosGet (paymentsUrl ++ s) (authConfig w.accessToken)
      = .fulfilled paymentResponse)
    (hrecord : paymentResponse.data.isNullish = false)
    (hnested : (nestedOrderId paymentResponse.data).toBoolean = false)
    (htop : (topLevelOrderId paymentResponse.data).toBoolean = false) :
    (consultaLink w body).calls = [.get (paymentsUrl ++ s) (authConfig w.accessToken)] ∧
      (consultaLink w body).completion = .responded ok200 ∧
      (consultaLink w body).status = some 200 ∧
      (consultaLink w body).logs = [.warn "No se encontró un order_id en el pago recibido"] := by
  rw [consultaLink_of_truthy w hid]
  cases hd : paymentResponse.data <;>
    simp_all [tryBlock, catchBlock, Run.status, orderId, JsValue.getField, nestedOrderId,
      topLevelOrderId, JsValue.isNullish, ok200]

/-- Witness of C5: payment 123 is `{ "status": "pending" }`, tied to no order. -/
theorem consultaLink_no_order_reference_witness :
    (consultaLink noOrderWorld event123).calls =
        [.get (paymentsUrl ++ "123") (authConfig noOrderWorld.accessToken)] ∧
      (consultaLink noOrderWorld event123).completion = .responded ok200 ∧
      (consultaLink noOrderWorld event123).status = some 200 ∧
      (consultaLink noOrderWorld event123).logs
        = [.warn "No se encontró un order_id en el pago recibido"] :=
  consultaLink_no_order_reference noOrderWorld event123 "123"
    ⟨200, .object [("status", .string "pending")]⟩ rfl rfl rfl rfl rfl rfl

/-- C6: when the event carries a payment id, the payment lookup succeeds and yields an order
reference, and the order lookup fails, the run issues the two lookups and nothing else, so the
relay is never invoked, and the answer is 200. -/
theorem consultaLink_order_lookup_fails (w : World) (body : JsValue) (s t : String)
    (paymentResponse : AxiosResponse) (oid : JsValue) (e : JsError)
    (hid : (dataId body).toBoolean = true) (hs : (dataId body).toStr = .ok s)
    (hpayment : w.axiosGet (paymentsUrl ++ s) (authConfig w.accessToken)
      = .fulfilled paymentResponse)
    (href : orderId paymentResponse.data = .ok oid) (hoid : oid.toBoolean = true)
    (ht : oid.toStr = .ok t)
    (horder : w.axiosGet (merchantOrdersUrl ++ t) (authConfig w.accessToken) = .rejected e) :
    (consultaLink w body).calls =
        [.get (paymentsUrl ++ s) (authConfig w.accessToken),
         .get (merchantOrdersUrl ++ t) (authConfig w.accessToken)] ∧
      ((consultaLink w body).calls.filter Call.isPost) = [] ∧
      (consultaLink w body).completion = .responded ok200 ∧
      (consultaLink w body).status = some 200 := by
  rw [consultaLink_of_truthy w hid]
  simp [tryBlock, catchBlock, Run.status, hs, hpayment, href, hoid, ht, horder, Call.isPost,
    ok200]

/-- Witness of C6: payment 123 names order 987, which the processor does not find. -/
theorem consultaLink_order_lookup_fails_witness :
    (consultaLink orderMissingWorld event123).calls =
        [.get (paymentsUrl ++ "123") (authConfig orderMissingWorld.accessToken),
         .get (merchantOrdersUrl ++ "987") (authConfig orderMissingWorld.accessToken)] ∧
      ((consultaLink orderMissingWorld event123).calls.filter Call.isPost) = [] ∧
      (consultaLink orderMissingWorld event123).completion = .responded ok200 ∧
      (consultaLink orderMissingWorld event123).status = some 200 :=
  consultaLink_order_lookup_fails orderMissingWorld event123 "123" "987"
    ⟨200, .object [("order", .object [("id", .number "987")])]⟩ (.number "987") notFound
    rfl rfl rfl rfl rfl rfl rfl

/-- C7: the order reference of a payment record is a prioritized fallback over the candidates
`order.id`, `order_id` in that order: `orderId` yields the nested `order.id` when that is present
and non-empty (truthy) and the top-level `order_id` otherwise; the value the order lookup is made
with (a truthy `orderId`) is exactly the first present and non-empty candidate of that list; and
no order reference is resolved (`orderId` is falsy) exactly when neither candidate is present and
non-empty. -/
theorem orderId_prioritized_fallback (paymentData : JsValue)
    (hrecord : paymentData.isNullish = false) :
    orderId paymentData
        = .ok (if (nestedOrderId paymentData).toBoolean then nestedOrderId paymentData
            else topLevelOrderId paymentData) ∧
      (∀ v, (orderId paymentData = .ok v ∧ v.toBoolean = true) ↔
        firstNonEmpty [nestedOrderId paymentData, topLevelOrderId paymentData] = some v) ∧
      ((∀ v, orderId paymentData = .ok v → v.toBoolean = false) ↔
        ((nestedOrderId paymentData).toBoolean = false ∧
          (topLevelOrderId paymentData).toBoolean = false)) := by
  have hget : ∀ key, paymentData.getField key = .ok (paymentData.field key) := by
    intro key
    cases paymentData <;> simp_all [JsValue.isNullish, JsValue.getField]
  have hcode : orderId paymentData
      = .ok (if (nestedOrderId paymentData).toBoolean then nestedOrderId paymentData
          else topLevelOrderId paymentData) := by
    cases hn : (nestedOrderId paymentData).toBoolean <;>
      · have hn2 := hn
        simp only [nestedOrderId] at hn2
        simp [orderId, hget, nestedOrderId, topLevelOrderId, hn2]
  refine ⟨hcode, ?_, ?_⟩
  · intro v
    rw [hcode]
    cases hn : (nestedOrderId paymentData).toBoolean <;>
      cases ht : (topLevelOrderId paymentData).toBoolean <;>
      simp [firstNonEmpty, List.find?, hn, ht] <;>
      · intro h
        rw [← h]
        assumption
  · rw [hcode]
    cases hn : (nestedOrderId paymentData).toBoolean <;>
      cases ht : (topLevelOrderId paymentData).toBoolean <;>
      simp [hn, ht]

/-- Witness of C7: in `{ "order": { "id": 55 }, "order_id": "987" }` the nested id wins. -/
theorem orderId_prioritized_fallback_witness :
    paymentBothRefs.isNullish = false ∧
      orderId paymentBothRefs = .ok (.number "55") ∧
      firstNonEmpty [nestedOrderId paymentBothRefs, topLevelOrderId paymentBothRefs]
        = some (.number "55") :=
  have h := orderId_prioritized_fallback paymentBothRefs rfl
  ⟨rfl, h.1, (h.2.1 (.number "55")).mp ⟨rfl, rfl⟩⟩

/-- C8, as stated, fails: for the event `{ "data": { "id": [] } }` the handler does not reject
the event, it calls the payment lookup; the value at `data.id` is an empty array, not a string of
length at least 1, and the text the URL template makes of it is empty, so the lookup goes to the
bare payments resource. -/
theorem consultaLink_payment_id_not_string :
    (consultaLink failingWorld emptyArrayEvent).calls
        = [.get "https://api.mercadopago.com/v1/payments/" (authConfig failingWorld.accessToken)] ∧
      dataId emptyArrayEvent = .array [] ∧
      ¬ ((consultaLink failingWorld emptyArrayEvent).calls = [] ∨
          ∃ s, dataId emptyArrayEvent = .string s ∧ 1 ≤ s.length) := by
  refine ⟨rfl, rfl, ?_⟩
  rintro (h | ⟨s, hs, _⟩)
  · exact absurd h (List.cons_ne_nil _ _)
  · have harr : dataId emptyArrayEvent = .array [] := rfl
    rw [harr] at hs
    cases hs

/-- C8, amended: whenever the handler invokes the payment lookup, the value at `data.id` is
truthy (not absent, `null`, `false`, `0`, `NaN` or the empty string), so that when it is a string
it has length at least 1; the lookup is the first call and its URL ends in the text the template
makes of that value. -/
theorem consultaLink_payment_id_truthy (w : World) (body : JsValue) :
    (consultaLink w body).calls = [] ∨
      ((dataId body).toBoolean = true ∧
        (∀ str, dataId body = .string str → 1 ≤ str.length) ∧
        ∃ s, (dataId body).toStr = .ok s ∧
          (consultaLink w body).calls.head?
            = some (.get (paymentsUrl ++ s) (authConfig w.accessToken))) := by
  cases hid : (dataId body).toBoolean with
  | false => exact Or.inl (consultaLink_calls_of_falsy w hid)
  | true =>
    rw [consultaLink_calls_of_truthy w hid]
    rcases tryBlock_calls w (dataId body) with h | ⟨s, hs, h⟩
    · exact Or.inl h
    · refine Or.inr ⟨rfl, ?_, s, hs, ?_⟩
      · intro str hstr
        rw [hstr] at hid
        exact one_le_length_of_truthy hid
      · rcases h with h | ⟨_, _, _, _, _, _, _, h | ⟨_, _, h⟩⟩ <;> simp [h]

/-- C9, as stated, fails: the payment lookup for the event with payment id 123 is issued with no
timeout, and at a processor that never answers the handler stays suspended on it and sends no
response. -/
theorem consultaLink_no_timeout_stalls :
    (consultaLink stalledWorld event123).calls.map Call.timeout = [none] ∧
      (consultaLink stalledWorld event123).completion = .pending ∧
      (consultaLink stalledWorld event123).status = none :=
  ⟨rfl, rfl, rfl⟩

/-- C9, amended: no outbound call of the pipeline carries a timeout (the lookups are issued with
the `Authorization` header only, the relay with no options at all); the handler reaches a terminal
response, 200 or 400, for every delivery with a body in which every collaborator call settles. -/
theorem consultaLink_responds_when_settled (w : World) (body : JsValue) :
    (∀ c ∈ (consultaLink w body).calls, c.timeout = none) ∧
      (body.isNullish = false → w.Settles →
        (consultaLink w body).completion = .responded ok200 ∨
          (consultaLink w body).completion = .responded badRequest) := by
  constructor
  · cases hid : (dataId body).toBoolean with
    | false => simp [consultaLink_calls_of_falsy w hid]
    | true =>
      rw [consultaLink_calls_of_truthy w hid]
      rcases tryBlock_calls w (dataId body) with
        h | ⟨s, _, h | ⟨_, _, t, _, _, _, _, h | ⟨_, _, h⟩⟩⟩ <;>
        simp [h, Call.timeout, authConfig]
  · intro hbody hw
    rw [status_of_settles w body hbody hw]
    cases (dataId body).toBoolean <;> simp

/-- Witness of C9 amended: payment 123 at a processor that answers 404: the call made carries
no timeout and the delivery is answered. -/
theorem consultaLink_responds_when_settled_witness :
    event123.isNullish = false ∧ failingWorld.Settles ∧
      (∀ c ∈ (consultaLink failingWorld event123).calls, c.timeout = none) ∧
      ((consultaLink failingWorld event123).completion = .responded ok200 ∨
        (consultaLink failingWorld event123).completion = .responded badRequest) :=
  have hfail : failingWorld.Settles := ⟨fun _ _ => rfl, fun _ _ => rfl⟩
  have h := consultaLink_responds_when_settled failingWorld event123
  ⟨rfl, hfail, h.1, h.2 rfl hfail⟩

/-- C10: the outbound calls of a delivery are a prefix of payment lookup with the text of
`data.id`, order lookup with the text of the order id resolved from the payment record, relay
with the `data` of the order response: no collaborator is called twice, the order lookup appears
only after a fulfilled payment lookup that yields an order reference, and the relay only after a
fulfilled order lookup. -/
theorem consultaLink_call_sequence (w : World) (body : JsValue) :
    (consultaLink w body).calls = [] ∨
      ∃ s, (dataId body).toBoolean = true ∧ (dataId body).toStr = .ok s ∧
        ((consultaLink w body).calls = [.get (paymentsUrl ++ s) (authConfig w.accessToken)] ∨
          ∃ paymentResponse oid t,
            w.axiosGet (paymentsUrl ++ s) (authConfig w.accessToken)
                = .fulfilled paymentResponse ∧
              orderId paymentResponse.data = .ok oid ∧ oid.toBoolean = true ∧
              oid.toStr = .ok t ∧
              ((consultaLink w body).calls =
                  [.get (paymentsUrl ++ s) (authConfig w.accessToken),
                   .get (merchantOrdersUrl ++ t) (authConfig w.accessToken)] ∨
                ∃ orderResponse,
                  w.axiosGet (merchantOrdersUrl ++ t) (authConfig w.accessToken)
                      = .fulfilled orderResponse ∧
                    (consultaLink w body).calls =
                      [.get (paymentsUrl ++ s) (authConfig w.accessToken),
                       .get (merchantOrdersUrl ++ t) (authConfig w.accessToken),
                       .post relayUrl orderResponse.data])) := by
  cases hid : (dataId body).toBoolean with
  | false => exact Or.inl (consultaLink_calls_of_falsy w hid)
  | true =>
    rw [consultaLink_calls_of_truthy w hid]
    rcases tryBlock_calls w (dataId body) with h | ⟨s, hs, h⟩
    · exact Or.inl h
    · exact Or.inr ⟨s, rfl, hs, h⟩

end ConsultaLink
